import Mathlib

/-!
# Phya: `Scene/paGenerate.cpp`

A shallow embedding of the global packaging for audio output of Phya
(`trunk/phya/src/Scene/paGenerate.cpp`) and theorems about it.

The translation unit keeps its state in file-level statics (`_monoCallback`,
`_limiter`, the three limiter times, `_audioThreadHandle`) and in three flags
of `paScene` (`audioThreadIsOn`, `isLocked`, `outputStreamIsOpen`).  Here this
state is the record `World`; every function of the file becomes a function on
`World`.  The collaborators whose code lives in other files (the block source
`paTick`, `paLimiter`, the output stream, the thread primitives, the user
callback) are the fields of `Env`; they act on a state `σ` of their own, which
the functions of this file only pass along; they do not write the statics and
flags of this file.  Every call to a collaborator, and every write to
`audioThreadIsOn` or `isLocked`, is appended to `World.trace`, so that the
order of the actions of a function can be stated.

The generation thread and the controlling thread are not interleaved here:
`_audioThreadBody` is one pass of the loop of `_audioThread`, and the calls of
the controlling thread are functions of their own.  Entering and leaving
`_critSec` are recorded as actions; blocking is not modelled.
-/

namespace Phya

/-- Sample and time type of Phya.  The file only ever compares such a value
with zero (`_limiterAttack > 0`).  Rationals stand for the values of the
floating-point type: rounding of literals and NaN have no counterpart here,
and the theorems below use the values `0` and `1` only. -/
abbrev paFloat := ℚ

/-- Address of a `paBlock`. -/
abbrev BlockPtr := Nat

/-- Address of a sample buffer (`paFloat*`). -/
abbrev BufPtr := Nat

/-- Address of a `paLimiter`. -/
abbrev LimiterPtr := Nat

/-- A non-null `void (*)(paFloat*)`. -/
abbrev CallbackPtr := Nat

/-- Value of type `paThreadHandle`. -/
abbrev ThreadHandle := Nat

/-- The observable actions of the functions of the file, in program order. -/
inductive Event where
  | newBlock (blk : BlockPtr)
  | paTick (blk : BlockPtr)
  | limiterTick (lim : LimiterPtr) (blk : BlockPtr)
  | callback (cb : CallbackPtr) (buf : BufPtr)
  | writeSamples (buf : BufPtr) (n : Int)
  | writeSamplesWithoutBlocking (buf : BufPtr) (n : Int) (ret : Int)
  | calcnDeviceBufferSamplesToFill (ret : Int)
  | calcnDeviceBufferSamplesToFillAdaptively (ret : Int)
  | paInitializeCriticalSection
  | paEnterCriticalSection
  | paLeaveCriticalSection
  | paStartThread (h : ThreadHandle)
  | paStopThread (h : ThreadHandle)
  | newLimiter (attack hold release : paFloat) (lim : LimiterPtr)
  | paTickInit (ret : Int)
  | setAudioThreadIsOn (b : Bool)
  | setIsLocked (b : Bool)
  deriving DecidableEq

/-- The collaborators of `paGenerate.cpp`, defined in other files of Phya and
of the AIO library.  `σ` is their state (synthesis state, block memory, limiter
envelopes, device buffers, threads). -/
structure Env (σ : Type) where
  /-- The static `paBlock::nFrames`. -/
  nFrames : Int
  /-- The allocation `new paBlock`. -/
  newBlock : σ → BlockPtr × σ
  /-- Block source `paTick()`: returns the next block. -/
  paTick : σ → BlockPtr × σ
  /-- Accessor `paBlock::getStart()`: the address of the sample buffer of a
  block, taken not to change while one block is being handled. -/
  getStart : BlockPtr → BufPtr
  /-- Method `paLimiter::tick(paBlock*)`: limits the block in place. -/
  limiterTick : LimiterPtr → BlockPtr → σ → σ
  /-- A call through a registered callback pointer. -/
  callback : CallbackPtr → BufPtr → σ → σ
  /-- Blocking `outputStream->writeSamples`; the file discards its result. -/
  writeSamples : BufPtr → Int → σ → σ
  /-- Method `outputStream->writeSamplesWithoutBlocking`. -/
  writeSamplesWithoutBlocking : BufPtr → Int → σ → Int × σ
  /-- Method `outputStream->calcnDeviceBufferSamplesToFill`. -/
  calcnDeviceBufferSamplesToFill : σ → Int × σ
  /-- Method `outputStream->calcnDeviceBufferSamplesToFillAdaptively`. -/
  calcnDeviceBufferSamplesToFillAdaptively : σ → Int × σ
  /-- Primitive `paStartThread(_audioThread)` of `System/paThread.hpp`. -/
  paStartThread : σ → ThreadHandle × σ
  /-- Test `paThreadErr(handle)`. -/
  paThreadErr : ThreadHandle → Bool
  /-- Primitive `paStopThread(handle)` of `System/paThread.hpp`. -/
  paStopThread : ThreadHandle → σ → σ
  /-- Constructor `new paLimiter(attack, hold, release)`. -/
  newLimiter : paFloat → paFloat → paFloat → σ → LimiterPtr × σ
  /-- Function `paTickInit()`. -/
  paTickInit : σ → Int × σ

/-- The statics of the file and the flags of `paScene` it uses, the state of
the collaborators and the trace of actions so far.  A null pointer is `none`. -/
structure World (σ : Type) where
  _monoCallback : Option CallbackPtr
  _limiter : Option LimiterPtr
  _limiterAttack : paFloat
  _limiterHold : paFloat
  _limiterRelease : paFloat
  _audioThreadHandle : ThreadHandle
  audioThreadIsOn : Bool
  isLocked : Bool
  outputStreamIsOpen : Bool
  ext : σ
  trace : List Event

variable {σ : Type}

/-- Append one action to the trace. -/
def World.emit (w : World σ) (e : Event) : World σ :=
  { w with trace := w.trace ++ [e] }

/-- The statement `if (_limiter) _limiter->tick(output);`. -/
def tickLimiter (env : Env σ) (output : BlockPtr) (w : World σ) : World σ :=
  match w._limiter with
  | some lim =>
    { w with ext := env.limiterTick lim output w.ext,
             trace := w.trace ++ [Event.limiterTick lim output] }
  | none => w

/-- The statement `if (_monoCallback) _monoCallback(output->getStart());`. -/
def callMonoCallback (env : Env σ) (output : BlockPtr) (w : World σ) : World σ :=
  match w._monoCallback with
  | some cb =>
    { w with ext := env.callback cb (env.getStart output) w.ext,
             trace := w.trace ++ [Event.callback cb (env.getStart output)] }
  | none => w

/-- The statement
`paScene::outputStream->writeSamples(output->getStart(), paBlock::nFrames);`. -/
def writeBlock (env : Env σ) (output : BlockPtr) (w : World σ) : World σ :=
  { w with ext := env.writeSamples (env.getStart output) env.nFrames w.ext,
           trace := w.trace ++ [Event.writeSamples (env.getStart output) env.nFrames] }

/-- The statement `output = paTick();`: the block and the world after it. -/
def callTick (env : Env σ) (w : World σ) : BlockPtr × World σ :=
  ((env.paTick w.ext).1,
    { w with ext := (env.paTick w.ext).2,
             trace := w.trace ++ [Event.paTick (env.paTick w.ext).1] })

/-- One pass through the body of the `while` loop of `_audioThread`
(lines 49-59). -/
def _audioThreadBody (env : Env σ) (w : World σ) : World σ :=
  let w1 := w.emit Event.paEnterCriticalSection
  let t := callTick env w1
  let output := t.1
  let w2 := t.2.emit Event.paLeaveCriticalSection
  let w3 := tickLimiter env output w2
  let w4 := callMonoCallback env output w3
  if w4.outputStreamIsOpen then writeBlock env output w4 else w4

/-- The loop `while (paScene::audioThreadIsOn) { ... }` of `_audioThread`,
with a bound on the number of passes; `none` when the bound is reached while
the flag is still set.  The flag is cleared by the controlling thread only, so
run on its own the loop leaves at once or not at all. -/
def _audioThreadLoop (env : Env σ) : Nat → World σ → Option (World σ)
  | 0, w => if w.audioThreadIsOn then none else some w
  | fuel + 1, w =>
    if w.audioThreadIsOn then _audioThreadLoop env fuel (_audioThreadBody env w)
    else some w

/-- The thread function `_audioThread` (lines 41-64). -/
def _audioThread (env : Env σ) (fuel : Nat) (w : World σ) : Option (Int × World σ) :=
  let b := env.newBlock w.ext
  let w0 := { w with ext := b.2, trace := w.trace ++ [Event.newBlock b.1] }
  (_audioThreadLoop env fuel w0).map (fun w1 => (0, w1))

/-- The function `paGenerate` (lines 70-86). -/
def paGenerate (env : Env σ) (w : World σ) : BufPtr × World σ :=
  let t := callTick env w
  let output := t.1
  let w1 := t.2
  let w2 := if w1.outputStreamIsOpen then writeBlock env output (tickLimiter env output w1)
            else w1
  let w3 := callMonoCallback env output w2
  (env.getStart output, w3)

/-- The function `paStartThread()` (lines 117-135). -/
def paStartThread (env : Env σ) (w : World σ) : Int × World σ :=
  let w1 := w.emit Event.paInitializeCriticalSection
  let w2 := { w1 with audioThreadIsOn := true,
                      trace := w1.trace ++ [Event.setAudioThreadIsOn true] }
  let r := env.paStartThread w2.ext
  let w3 := { w2 with _audioThreadHandle := r.1, ext := r.2,
                      trace := w2.trace ++ [Event.paStartThread r.1] }
  if env.paThreadErr w3._audioThreadHandle then
    (-1, { w3 with audioThreadIsOn := false,
                   trace := w3.trace ++ [Event.setAudioThreadIsOn false] })
  else (0, w3)

/-- The function `paStopThread()` (lines 137-146). -/
def paStopThread (env : Env σ) (w : World σ) : Int × World σ :=
  let w1 := { w with ext := env.paStopThread w._audioThreadHandle w.ext,
                     trace := w.trace ++ [Event.paStopThread w._audioThreadHandle] }
  (0, { w1 with audioThreadIsOn := false,
                trace := w1.trace ++ [Event.setAudioThreadIsOn false] })

/-- The loop
`while (outputStream->writeSamplesWithoutBlocking(paTick()->getStart(), paBlock::nFrames) != -1);`
of lines 160 and 175, with a bound on the number of passes. -/
def autoGenerateLoop (env : Env σ) : Nat → World σ → Option (World σ)
  | 0, _ => none
  | fuel + 1, w =>
    let t := callTick env w
    let r := env.writeSamplesWithoutBlocking (env.getStart t.1) env.nFrames t.2.ext
    let w1 := { t.2 with ext := r.2,
                         trace := t.2.trace ++
                           [Event.writeSamplesWithoutBlocking (env.getStart t.1) env.nFrames r.1] }
    if r.1 != -1 then autoGenerateLoop env fuel w1 else some w1

/-- The function `paAutoGenerate` (lines 151-163). -/
def paAutoGenerate (env : Env σ) (fuel : Nat) (w : World σ) : Option (Int × World σ) :=
  let c := env.calcnDeviceBufferSamplesToFill w.ext
  let w1 := { w with ext := c.2,
                     trace := w.trace ++ [Event.calcnDeviceBufferSamplesToFill c.1] }
  if c.1 == -1 then some (-1, w1)
  else (autoGenerateLoop env fuel w1).map (fun w2 => (0, w2))

/-- The function `paAdaptiveAutoGenerate` (lines 166-178). -/
def paAdaptiveAutoGenerate (env : Env σ) (fuel : Nat) (w : World σ) :
    Option (Int × World σ) :=
  let c := env.calcnDeviceBufferSamplesToFillAdaptively w.ext
  let w1 := { w with ext := c.2,
                     trace := w.trace ++ [Event.calcnDeviceBufferSamplesToFillAdaptively c.1] }
  if c.1 == -1 then some (-1, w1)
  else (autoGenerateLoop env fuel w1).map (fun w2 => (0, w2))

/-- The function `paSetLimiter` (lines 186-194). -/
def paSetLimiter (attackTime holdTime releaseTime : paFloat) (w : World σ) :
    Int × World σ :=
  (0, { w with _limiterAttack := attackTime, _limiterHold := holdTime,
               _limiterRelease := releaseTime })

/-- The function `paInit` (lines 198-205). -/
def paInit (env : Env σ) (w : World σ) : Int × World σ :=
  let w1 :=
    if w._limiterAttack > 0 then
      let r := env.newLimiter w._limiterAttack w._limiterHold w._limiterRelease w.ext
      { w with _limiter := some r.1, ext := r.2,
               trace := w.trace ++
                 [Event.newLimiter w._limiterAttack w._limiterHold w._limiterRelease r.1] }
    else w
  let i := env.paTickInit w1.ext
  (i.1, { w1 with ext := i.2, trace := w1.trace ++ [Event.paTickInit i.1] })

/-- The function `paSetOutputCallback` (lines 207-215); the argument `none` is
the null pointer. -/
def paSetOutputCallback (cb : Option CallbackPtr) (w : World σ) : Int × World σ :=
  match cb with
  | none => (-1, w)
  | some f => (0, { w with _monoCallback := some f })

/-! ## Reading traces -/

/-- The actions appended to the trace between the world `w` and a later world
`w1`. -/
def newEvents (w w1 : World σ) : List Event :=
  w1.trace.drop w.trace.length

/-- In `tr`, the action `a` occurs, `b` occurs, and the first `a` comes
strictly before the first `b`. -/
def happensBefore (a b : Event) : List Event → Bool
  | [] => false
  | e :: es =>
    if e = b then false
    else if e = a then es.contains b
    else happensBefore a b es

/-- Number of calls of the block source `paTick` in a trace. -/
def countTicks (tr : List Event) : Nat :=
  tr.countP (fun e => match e with | Event.paTick _ => true | _ => false)

/-- Actions on the critical section `_critSec`. -/
def Event.isGate : Event → Bool
  | Event.paInitializeCriticalSection => true
  | Event.paEnterCriticalSection => true
  | Event.paLeaveCriticalSection => true
  | _ => false

/-- Writes to `paScene::audioThreadIsOn` or `paScene::isLocked`. -/
def Event.isFlagWrite : Event → Bool
  | Event.setAudioThreadIsOn _ => true
  | Event.setIsLocked _ => true
  | _ => false

/-- The limiter action of one block: present exactly when `_limiter` is set. -/
def limiterEvents (lim : Option LimiterPtr) (blk : BlockPtr) : List Event :=
  lim.toList.map (fun l => Event.limiterTick l blk)

/-- The callback action of one block: present exactly when `_monoCallback` is
set. -/
def callbackEvents (cb : Option CallbackPtr) (buf : BufPtr) : List Event :=
  cb.toList.map (fun c => Event.callback c buf)

/-- Modelled from the spec: the primitive `paStopThread(handle)` of
`System/paThread`, whose code is not in this file, waits for the termination of
the generation thread, and that thread terminates when its loop finds
`audioThreadIsOn` false.  `waitReturns env fuel w` tells whether the loop,
running in the world `w` in which the wait begins, leaves within `fuel`
passes. -/
def waitReturns (env : Env σ) (fuel : Nat) (w : World σ) : Bool :=
  (_audioThreadLoop env fuel w).isSome

/-- The two non-blocking operations, told apart by `adaptive`. -/
def autoGenerate (env : Env σ) (adaptive : Bool) (fuel : Nat) (w : World σ) :
    Option (Int × World σ) :=
  if adaptive then paAdaptiveAutoGenerate env fuel w else paAutoGenerate env fuel w

/-- The capacity query each of the two operations issues. -/
def capacityQuery (env : Env σ) (adaptive : Bool) : σ → Int × σ :=
  if adaptive then env.calcnDeviceBufferSamplesToFillAdaptively
  else env.calcnDeviceBufferSamplesToFill

/-- The action of the capacity query. -/
def capacityEvent (adaptive : Bool) (ret : Int) : Event :=
  if adaptive then Event.calcnDeviceBufferSamplesToFillAdaptively ret
  else Event.calcnDeviceBufferSamplesToFill ret

/-- The collaborators' side of one round: the block source produces a block
and the sink is offered `paBlock::nFrames` samples of it without blocking. -/
def autoRound (env : Env σ) (s : σ) : Int × σ :=
  env.writeSamplesWithoutBlocking (env.getStart (env.paTick s).1) env.nFrames (env.paTick s).2

/-- The state of the collaborators after `n` rounds. -/
def autoState (env : Env σ) : Nat → σ → σ
  | 0, s => s
  | n + 1, s => autoState env n (autoRound env s).2

/-- From the state `s`, the non-blocking write returns `-1` for the first time
on its `(k+1)`-th call. -/
def firstRefusalAt (env : Env σ) : Nat → σ → Bool
  | 0, s => (autoRound env s).1 == -1
  | k + 1, s => (autoRound env s).1 != -1 && firstRefusalAt env k (autoRound env s).2

/-- The actions of `k + 1` rounds from the state `s`. -/
def autoEvents (env : Env σ) : Nat → σ → List Event
  | 0, s =>
    [Event.paTick (env.paTick s).1,
      Event.writeSamplesWithoutBlocking (env.getStart (env.paTick s).1) env.nFrames
        (autoRound env s).1]
  | k + 1, s =>
    [Event.paTick (env.paTick s).1,
      Event.writeSamplesWithoutBlocking (env.getStart (env.paTick s).1) env.nFrames
        (autoRound env s).1] ++ autoEvents env k (autoRound env s).2

/-- The trace consists of pairs: a `paTick` action immediately followed by one
non-blocking write of `paBlock::nFrames` samples of the block just produced;
every write but the last returns a value other than `-1`, the last returns
`-1`. -/
def tickWritePairs (env : Env σ) : List Event → Bool
  | [Event.paTick blk, Event.writeSamplesWithoutBlocking buf n ret] =>
    buf == env.getStart blk && n == env.nFrames && ret == -1
  | Event.paTick blk :: Event.writeSamplesWithoutBlocking buf n ret :: rest =>
    buf == env.getStart blk && n == env.nFrames && ret != -1 && tickWritePairs env rest
  | _ => false

/-- Number of non-blocking writes in a trace. -/
def countWrites (tr : List Event) : Nat :=
  tr.countP (fun e => match e with
    | Event.writeSamplesWithoutBlocking _ _ _ => true
    | Event.writeSamples _ _ => true
    | _ => false)

/-- Actions that the non-blocking operations never perform: critical-section
actions, limiter ticks, callback calls and writes to the two flags. -/
def Event.isBypassed : Event → Bool
  | Event.limiterTick _ _ => true
  | Event.callback _ _ => true
  | e => e.isGate || e.isFlagWrite

/-! ## A small concrete set of collaborators

Used to evaluate the functions on concrete inputs. -/

/-- State of the concrete collaborators: one block at address `0` whose
samples are `block`, a sink that records what it receives, a callback that
records what it is shown. -/
structure Demo where
  produced : Nat
  block : List Int
  streamed : List (List Int)
  heard : List (List Int)
  room : Nat
  ready : Bool
  threadsAvailable : Bool
  limiters : Nat
  deriving DecidableEq

/-- Concrete collaborators.  The block source writes the samples `3n, -3n`
into the block on its `n`-th call; the limiter clips samples to `[-1, 1]`; the
non-blocking write accepts `room` blocks and then answers `-1`. -/
def demoEnv : Env Demo where
  nFrames := 2
  newBlock s := (1, s)
  paTick s :=
    (0, { s with produced := s.produced + 1,
                 block := [3 * ((s.produced : Int) + 1), -3 * ((s.produced : Int) + 1)] })
  getStart blk := blk + 100
  limiterTick _ _ s := { s with block := s.block.map (fun x => max (-1) (min 1 x)) }
  callback _ _ s := { s with heard := s.heard ++ [s.block] }
  writeSamples _ _ s := { s with streamed := s.streamed ++ [s.block] }
  writeSamplesWithoutBlocking _ n s :=
    match s.room with
    | 0 => (-1, s)
    | r + 1 => (n, { s with room := r, streamed := s.streamed ++ [s.block] })
  calcnDeviceBufferSamplesToFill s := (if s.ready then 2 * (s.room : Int) else -1, s)
  calcnDeviceBufferSamplesToFillAdaptively s := (if s.ready then 2 * (s.room : Int) else -1, s)
  paStartThread s := (if s.threadsAvailable then 1 else 0, s)
  paThreadErr h := h == 0
  paStopThread _ s := s
  newLimiter _ _ _ s := (s.limiters + 1, { s with limiters := s.limiters + 1 })
  paTickInit s := (0, s)

/-- Initial state of the concrete collaborators. -/
def demoExt : Demo :=
  { produced := 0, block := [], streamed := [], heard := [], room := 2, ready := true,
    threadsAvailable := true, limiters := 0 }

/-- The state of the file at program start: all statics zero, all flags
false. -/
def demoWorld : World Demo :=
  { _monoCallback := none, _limiter := none, _limiterAttack := 0, _limiterHold := 0,
    _limiterRelease := 0, _audioThreadHandle := 0, audioThreadIsOn := false,
    isLocked := false, outputStreamIsOpen := false, ext := demoExt, trace := [] }

/-- A limiter exists, a callback is registered, the sink is closed. -/
def demoClosedSink : World Demo :=
  { demoWorld with _limiter := some 1, _monoCallback := some 7 }

/-- A limiter exists, a callback is registered, the sink is open. -/
def demoOpenSink : World Demo :=
  { demoWorld with _limiter := some 1, _monoCallback := some 7, outputStreamIsOpen := true }

/-- Thread creation fails for these collaborators. -/
def demoNoThreads : World Demo :=
  { demoWorld with ext := { demoExt with threadsAvailable := false } }

/-- The generation thread runs with handle `1`. -/
def demoRunning : World Demo :=
  { demoWorld with audioThreadIsOn := true, _audioThreadHandle := 1 }

/-- The calls `paSetLimiter(1,1,1); paInit(); paSetLimiter(0,0,0); paInit();`
made at program start with the sink open and callback `7` registered. -/
def demoReinit : World Demo :=
  (paInit demoEnv (paSetLimiter 0 0 0
    (paInit demoEnv (paSetLimiter 1 1 1
      { demoWorld with _monoCallback := some 7, outputStreamIsOpen := true }).2).2).2).2

/-- The device buffer is not ready. -/
def demoNotReady : World Demo :=
  { demoWorld with ext := { demoExt with ready := false } }

/-! ## Basic facts about the statements -/

theorem paGenerate_trace (env : Env σ) (w : World σ) :
    (paGenerate env w).2.trace =
      w.trace ++ (Event.paTick (env.paTick w.ext).1 ::
        ((if w.outputStreamIsOpen then
            limiterEvents w._limiter (env.paTick w.ext).1 ++
              [Event.writeSamples (env.getStart (env.paTick w.ext).1) env.nFrames]
          else []) ++
          callbackEvents w._monoCallback (env.getStart (env.paTick w.ext).1))) := by
  rcases w with ⟨cb, lim, a, h, r, th, thOn, lk, op, s, tr⟩
  cases op <;> cases lim <;> cases cb <;>
    simp [paGenerate, callTick, writeBlock, tickLimiter, callMonoCallback,
      limiterEvents, callbackEvents]

theorem audioThreadBody_trace (env : Env σ) (w : World σ) :
    (_audioThreadBody env w).trace =
      w.trace ++ ([Event.paEnterCriticalSection, Event.paTick (env.paTick w.ext).1,
          Event.paLeaveCriticalSection] ++
        limiterEvents w._limiter (env.paTick w.ext).1 ++
        callbackEvents w._monoCallback (env.getStart (env.paTick w.ext).1) ++
        (if w.outputStreamIsOpen then
          [Event.writeSamples (env.getStart (env.paTick w.ext).1) env.nFrames]
         else [])) := by
  rcases w with ⟨cb, lim, a, h, r, th, thOn, lk, op, s, tr⟩
  cases op <;> cases lim <;> cases cb <;>
    simp [_audioThreadBody, World.emit, callTick, writeBlock, tickLimiter, callMonoCallback,
      limiterEvents, callbackEvents]

theorem newEvents_of_trace (w w1 : World σ) (evs : List Event)
    (h : w1.trace = w.trace ++ evs) : newEvents w w1 = evs := by
  simp [newEvents, h]

theorem paGenerate_closed_sink_trace (env : Env σ) (w : World σ)
    (hclosed : w.outputStreamIsOpen = false) :
    newEvents w (paGenerate env w).2 =
      Event.paTick (env.paTick w.ext).1 ::
        callbackEvents w._monoCallback (env.getStart (env.paTick w.ext).1) := by
  rw [newEvents_of_trace w _ _ (paGenerate_trace env w)]
  simp [hclosed]

theorem paGenerate_open_sink_limits (env : Env σ) (w : World σ) (lim : LimiterPtr)
    (cb : CallbackPtr) (hopen : w.outputStreamIsOpen = true) (hl : w._limiter = some lim)
    (hcb : w._monoCallback = some cb) :
    newEvents w (paGenerate env w).2 =
        [Event.paTick (env.paTick w.ext).1, Event.limiterTick lim (env.paTick w.ext).1,
          Event.writeSamples (env.getStart (env.paTick w.ext).1) env.nFrames,
          Event.callback cb (env.getStart (env.paTick w.ext).1)]
      ∧ happensBefore (Event.limiterTick lim (env.paTick w.ext).1)
          (Event.writeSamples (env.getStart (env.paTick w.ext).1) env.nFrames)
          (newEvents w (paGenerate env w).2) = true
      ∧ happensBefore (Event.limiterTick lim (env.paTick w.ext).1)
          (Event.callback cb (env.getStart (env.paTick w.ext).1))
          (newEvents w (paGenerate env w).2) = true := by
  rw [newEvents_of_trace w _ _ (paGenerate_trace env w)]
  simp [hopen, hl, hcb, limiterEvents, callbackEvents, happensBefore]

/-- C2: the code at the failing input.  With a limiter instance, a registered
callback and a closed sink, `paGenerate` calls the callback and no limiter tick
runs: the callback is shown the samples `3, -3` as the block source produced
them.  On the same input one pass of the loop of `_audioThread` ticks the
limiter before it calls the callback, which is shown the limited samples
`1, -1`. -/
theorem paGenerate_closed_sink_skips_limiter :
    demoClosedSink._limiter = some 1 ∧ demoClosedSink._monoCallback = some 7 ∧
      demoClosedSink.outputStreamIsOpen = false ∧
      newEvents demoClosedSink (paGenerate demoEnv demoClosedSink).2 =
        [Event.paTick 0, Event.callback 7 100] ∧
      happensBefore (Event.limiterTick 1 0) (Event.callback 7 100)
        (newEvents demoClosedSink (paGenerate demoEnv demoClosedSink).2) = false ∧
      (demoEnv.paTick demoClosedSink.ext).2.block = [3, -3] ∧
      (paGenerate demoEnv demoClosedSink).2.ext.heard = [[3, -3]] ∧
      newEvents demoClosedSink (_audioThreadBody demoEnv demoClosedSink) =
        [Event.paEnterCriticalSection, Event.paTick 0, Event.paLeaveCriticalSection,
          Event.limiterTick 1 0, Event.callback 7 100] ∧
      happensBefore (Event.limiterTick 1 0) (Event.callback 7 100)
        (newEvents demoClosedSink (_audioThreadBody demoEnv demoClosedSink)) = true ∧
      (_audioThreadBody demoEnv demoClosedSink).ext.heard = [[1, -1]] := by
  decide

/-! ## Order of the two outputs -/

/-- C3, as stated, fails: in a pass of the loop of `_audioThread` with the sink
open and a callback registered, the callback call comes before the stream
write. -/
theorem audioThread_callback_precedes_write :
    demoOpenSink.outputStreamIsOpen = true ∧ demoOpenSink._monoCallback = some 7 ∧
      happensBefore (Event.writeSamples 100 2) (Event.callback 7 100)
        (newEvents demoOpenSink (_audioThreadBody demoEnv demoOpenSink)) = false ∧
      newEvents demoOpenSink (_audioThreadBody demoEnv demoOpenSink) =
        [Event.paEnterCriticalSection, Event.paTick 0, Event.paLeaveCriticalSection,
          Event.limiterTick 1 0, Event.callback 7 100, Event.writeSamples 100 2] := by
  decide

/-- C3, amended: for every block handled when the sink is open and a callback
is registered, `paGenerate` writes the block to the stream before it calls the
callback, and a pass of the loop of `_audioThread` calls the callback before it
writes the block to the stream. -/
theorem output_order (env : Env σ) (w : World σ) (cb : CallbackPtr)
    (hopen : w.outputStreamIsOpen = true) (hcb : w._monoCallback = some cb) :
    happensBefore (Event.writeSamples (env.getStart (env.paTick w.ext).1) env.nFrames)
        (Event.callback cb (env.getStart (env.paTick w.ext).1))
        (newEvents w (paGenerate env w).2) = true
      ∧ happensBefore (Event.callback cb (env.getStart (env.paTick w.ext).1))
        (Event.writeSamples (env.getStart (env.paTick w.ext).1) env.nFrames)
        (newEvents w (_audioThreadBody env w)) = true := by
  rw [newEvents_of_trace w _ _ (paGenerate_trace env w),
    newEvents_of_trace w _ _ (audioThreadBody_trace env w)]
  cases hl : w._limiter <;>
    simp [hopen, hcb, limiterEvents, callbackEvents, happensBefore]

theorem output_order_witness :
    demoOpenSink.outputStreamIsOpen = true ∧ demoOpenSink._monoCallback = some 7 ∧
      happensBefore (Event.writeSamples 100 2) (Event.callback 7 100)
        (newEvents demoOpenSink (paGenerate demoEnv demoOpenSink).2) = true
      ∧ happensBefore (Event.callback 7 100) (Event.writeSamples 100 2)
        (newEvents demoOpenSink (_audioThreadBody demoEnv demoOpenSink)) = true :=
  ⟨rfl, rfl, output_order demoEnv demoOpenSink 7 rfl rfl⟩

/-! ## The generation loop -/

theorem audioThreadBody_fields (env : Env σ) (w : World σ) :
    (_audioThreadBody env w)._limiter = w._limiter
      ∧ (_audioThreadBody env w)._monoCallback = w._monoCallback
      ∧ (_audioThreadBody env w).outputStreamIsOpen = w.outputStreamIsOpen
      ∧ (_audioThreadBody env w).audioThreadIsOn = w.audioThreadIsOn
      ∧ (_audioThreadBody env w).isLocked = w.isLocked := by
  rcases w with ⟨cb, lim, a, h, r, th, thOn, lk, op, s, tr⟩
  cases op <;> cases lim <;> cases cb <;>
    simp [_audioThreadBody, World.emit, callTick, writeBlock, tickLimiter, callMonoCallback]

theorem audioThreadLoop_alone (env : Env σ) (fuel : Nat) :
    ∀ w : World σ, _audioThreadLoop env fuel w = if w.audioThreadIsOn then none else some w := by
  induction fuel with
  | zero => intro w; simp [_audioThreadLoop]
  | succ n ih =>
    intro w
    rw [_audioThreadLoop, ih, (audioThreadBody_fields env w).2.2.2.1]
    cases w.audioThreadIsOn <;> simp

/-- C4, as stated, fails: when thread creation fails, `paStartThread` returns
`-1` with `audioThreadIsOn` false, having written the flag back. -/
theorem paStartThread_failure_clears_flag :
    demoEnv.paThreadErr (demoEnv.paStartThread demoNoThreads.ext).1 = true ∧
      (paStartThread demoEnv demoNoThreads).1 = -1 ∧
      (paStartThread demoEnv demoNoThreads).2.audioThreadIsOn = false ∧
      (paStartThread demoEnv demoNoThreads).2.trace =
        [Event.paInitializeCriticalSection, Event.setAudioThreadIsOn true,
          Event.paStartThread 0, Event.setAudioThreadIsOn false] := by
  decide

/-- C4, amended: `paStartThread` returns `0` when thread creation succeeds and
`-1` when it fails; `audioThreadIsOn` is true at return when creation
succeeded and false when it failed: the flag is set true before the launch
and, on failure, is written back to false before the return. -/
theorem paStartThread_contract (env : Env σ) (w : World σ) :
    (paStartThread env w).1 =
        (if env.paThreadErr (env.paStartThread w.ext).1 then -1 else 0)
      ∧ (paStartThread env w).2.audioThreadIsOn =
        !env.paThreadErr (env.paStartThread w.ext).1
      ∧ (paStartThread env w).2.trace =
        w.trace ++
          ([Event.paInitializeCriticalSection, Event.setAudioThreadIsOn true,
              Event.paStartThread (env.paStartThread w.ext).1] ++
            (if env.paThreadErr (env.paStartThread w.ext).1 then
              [Event.setAudioThreadIsOn false] else [])) := by
  cases h : env.paThreadErr (env.paStartThread w.ext).1 <;>
    simp [paStartThread, World.emit, h]

theorem paStopThread_trace (env : Env σ) (w : World σ) :
    (paStopThread env w).2.trace =
        w.trace ++ [Event.paStopThread w._audioThreadHandle, Event.setAudioThreadIsOn false]
      ∧ happensBefore (Event.paStopThread w._audioThreadHandle)
          (Event.setAudioThreadIsOn false)
          (newEvents w (paStopThread env w).2) = true := by
  have ht : (paStopThread env w).2.trace =
      w.trace ++ [Event.paStopThread w._audioThreadHandle, Event.setAudioThreadIsOn false] := by
    simp [paStopThread]
  refine ⟨ht, ?_⟩
  rw [newEvents_of_trace w _ _ ht]
  simp [happensBefore]

theorem waitReturns_while_on (env : Env σ) (fuel : Nat) (w : World σ)
    (hon : w.audioThreadIsOn = true) : waitReturns env fuel w = false := by
  simp [waitReturns, audioThreadLoop_alone, hon]

/-- C9: the code at the failing input.  With the generation thread running
(`audioThreadIsOn` true, handle `1`), `paStopThread` calls the wait
`paStopThread(_audioThreadHandle)` first and writes false to `audioThreadIsOn`
only after it: the write does not come before the wait.  While the caller is
in the wait the flag is still true, so the loop of `_audioThread` does not
leave, whatever the number of passes. -/
theorem paStopThread_waits_before_flag :
    demoRunning.audioThreadIsOn = true ∧
      newEvents demoRunning (paStopThread demoEnv demoRunning).2 =
        [Event.paStopThread 1, Event.setAudioThreadIsOn false] ∧
      happensBefore (Event.setAudioThreadIsOn false) (Event.paStopThread 1)
        (newEvents demoRunning (paStopThread demoEnv demoRunning).2) = false ∧
      happensBefore (Event.paStopThread 1) (Event.setAudioThreadIsOn false)
        (newEvents demoRunning (paStopThread demoEnv demoRunning).2) = true ∧
      (∀ fuel : Nat, waitReturns demoEnv fuel demoRunning = false) :=
  ⟨by decide, by decide, by decide, by decide,
    fun fuel => waitReturns_while_on demoEnv fuel demoRunning rfl⟩

/-! ## Configuration -/

/-- C6: `paSetOutputCallback(cb)` returns `-1` if and only if `cb` is null,
and then changes nothing, so that the next `paGenerate` behaves as it would
have without the call (a registered callback is still called); for a non-null
`f` it returns `0` and `f` is the registered callback, the one the next
`paGenerate` calls, once. -/
theorem paSetOutputCallback_contract (env : Env σ) (w : World σ)
    (cb : Option CallbackPtr) (f : CallbackPtr) :
    ((paSetOutputCallback cb w).1 = -1 ↔ cb = none)
      ∧ (paSetOutputCallback none w).2 = w
      ∧ paGenerate env (paSetOutputCallback none w).2 = paGenerate env w
      ∧ (newEvents w (paGenerate env (paSetOutputCallback none w).2).2).filter
          (fun e => match e with | Event.callback _ _ => true | _ => false) =
        callbackEvents w._monoCallback (env.getStart (env.paTick w.ext).1)
      ∧ (paSetOutputCallback (some f) w).1 = 0
      ∧ (paSetOutputCallback (some f) w).2 = { w with _monoCallback := some f }
      ∧ (newEvents w (paGenerate env (paSetOutputCallback (some f) w).2).2).filter
          (fun e => match e with | Event.callback _ _ => true | _ => false) =
        [Event.callback f (env.getStart (env.paTick w.ext).1)] := by
  refine ⟨?_, rfl, rfl, ?_, rfl, rfl, ?_⟩
  · cases cb <;> simp [paSetOutputCallback]
  · rw [show (paSetOutputCallback none w).2 = w from rfl,
      newEvents_of_trace w _ _ (paGenerate_trace env w)]
    cases w.outputStreamIsOpen <;> cases w._limiter <;> cases w._monoCallback <;>
      simp [limiterEvents, callbackEvents]
  · have ht := paGenerate_trace env (paSetOutputCallback (some f) w).2
    rw [newEvents_of_trace w _ _ ht]
    simp only [paSetOutputCallback]
    cases w.outputStreamIsOpen <;> cases w._limiter <;>
      simp [limiterEvents, callbackEvents]

theorem paInit_after_zero_limiter (env : Env σ) (w : World σ) :
    (paInit env (paSetLimiter 0 0 0 w).2).2._limiter = w._limiter := by
  simp [paInit, paSetLimiter]

/-- C5: the code at the failing input.  After `paSetLimiter(1,1,1); paInit();`
the calls `paSetLimiter(0,0,0); paInit();` leave the limiter built by the first
`paInit` in `_limiter`; the next `paGenerate` and the next pass of the loop of
`_audioThread` tick it, and the sink and the callback receive the clipped
samples `1, -1` where the block source produced `3, -3`. -/
theorem paInit_zero_times_keeps_limiter :
    demoReinit._limiterAttack = 0 ∧ demoReinit._limiterHold = 0 ∧
      demoReinit._limiterRelease = 0 ∧ demoReinit._limiter = some 1 ∧
      newEvents demoReinit (paGenerate demoEnv demoReinit).2 =
        [Event.paTick 0, Event.limiterTick 1 0, Event.writeSamples 100 2,
          Event.callback 7 100] ∧
      (demoEnv.paTick demoReinit.ext).2.block = [3, -3] ∧
      (paGenerate demoEnv demoReinit).2.ext.streamed = [[1, -1]] ∧
      (paGenerate demoEnv demoReinit).2.ext.heard = [[1, -1]] ∧
      newEvents demoReinit (_audioThreadBody demoEnv demoReinit) =
        [Event.paEnterCriticalSection, Event.paTick 0, Event.paLeaveCriticalSection,
          Event.limiterTick 1 0, Event.callback 7 100, Event.writeSamples 100 2] ∧
      (_audioThreadBody demoEnv demoReinit).ext.streamed = [[1, -1]] := by
  decide


/-! ## The lock flag and the mode flag -/

theorem autoGenerateLoop_result (env : Env σ) (k : Nat) :
    ∀ (fuel : Nat) (w : World σ), firstRefusalAt env k w.ext = true → k < fuel →
      autoGenerateLoop env fuel w =
        some { w with ext := autoState env (k + 1) w.ext,
                      trace := w.trace ++ autoEvents env k w.ext } := by
  induction k with
  | zero =>
    intro fuel w hk hf
    cases fuel with
    | zero => omega
    | succ f =>
      simp only [firstRefusalAt, beq_iff_eq] at hk
      simp only [autoRound] at hk
      simp [autoGenerateLoop, callTick, hk, autoState, autoEvents, autoRound]
  | succ k ih =>
    intro fuel w hk hf
    cases fuel with
    | zero => omega
    | succ f =>
      simp only [firstRefusalAt, Bool.and_eq_true, bne_iff_ne, ne_eq] at hk
      obtain ⟨h1, h2⟩ := hk
      have h1a := h1
      simp only [autoRound] at h1a
      rw [autoGenerateLoop]
      simp only [callTick, bne_iff_ne, ne_eq, h1a, not_false_eq_true, if_true]
      rw [ih f _ (by simpa [autoRound] using h2) (by omega)]
      simp [autoState, autoEvents, autoRound]

theorem countTicks_autoEvents (env : Env σ) (k : Nat) :
    ∀ s : σ, countTicks (autoEvents env k s) = k + 1 := by
  induction k with
  | zero => intro s; simp [autoEvents, countTicks]
  | succ k ih =>
    intro s
    have h := ih (autoRound env s).2
    simp only [countTicks] at h
    simp [autoEvents, countTicks, h]

theorem countWrites_autoEvents (env : Env σ) (k : Nat) :
    ∀ s : σ, countWrites (autoEvents env k s) = k + 1 := by
  induction k with
  | zero => intro s; simp [autoEvents, countWrites]
  | succ k ih =>
    intro s
    have h := ih (autoRound env s).2
    simp only [countWrites] at h
    simp [autoEvents, countWrites, h]

theorem autoEvents_ne_nil (env : Env σ) (k : Nat) (s : σ) : autoEvents env k s ≠ [] := by
  cases k <;> simp [autoEvents]

theorem tickWritePairs_autoEvents (env : Env σ) (k : Nat) :
    ∀ s : σ, firstRefusalAt env k s = true → tickWritePairs env (autoEvents env k s) = true := by
  induction k with
  | zero =>
    intro s hk
    simp only [firstRefusalAt, beq_iff_eq] at hk
    simp [autoEvents, tickWritePairs, hk]
  | succ k ih =>
    intro s hk
    simp only [firstRefusalAt, Bool.and_eq_true, bne_iff_ne, ne_eq] at hk
    have h := ih _ hk.2
    have hne := autoEvents_ne_nil env k (autoRound env s).2
    simp only [autoEvents, List.cons_append, List.nil_append]
    rw [tickWritePairs]
    · simp [h, hk.1]
    · intro heq
      exact hne heq

theorem bypassed_autoEvents (env : Env σ) (k : Nat) :
    ∀ s : σ, (autoEvents env k s).all (fun e => !e.isBypassed) = true := by
  induction k with
  | zero => intro s; simp [autoEvents, Event.isBypassed, Event.isGate, Event.isFlagWrite]
  | succ k ih =>
    intro s
    have h := ih (autoRound env s).2
    simp only [List.all_eq_true] at h
    simp only [autoEvents, List.all_append, Bool.and_eq_true, List.all_eq_true]
    refine ⟨?_, h⟩
    simp [Event.isBypassed, Event.isGate, Event.isFlagWrite]


/-- C7: `paAutoGenerate` and `paAdaptiveAutoGenerate` differ only in the
capacity query.  If the query returns `-1` the operation returns `-1` and its
only action is the query: no `paTick` call and no write.  Otherwise, if the
non-blocking write returns `-1` for the first time on its `(k+1)`-th call, the
operation (given a loop bound above `k`) returns `0` after exactly `k + 1`
`paTick` calls and `k + 1` writes, each block going, in production order, to
the one non-blocking write of `paBlock::nFrames` samples that follows its
production, with no limiter tick, no callback call, no critical-section action
and no change of any static or flag. -/
theorem autoGenerate_contract (env : Env σ) (adaptive : Bool) (fuel k : Nat) (w : World σ) :
    ((capacityQuery env adaptive w.ext).1 = -1 →
        autoGenerate env adaptive fuel w =
          some (-1, { w with ext := (capacityQuery env adaptive w.ext).2,
                             trace := w.trace ++ [capacityEvent adaptive (-1)] }))
      ∧ ((capacityQuery env adaptive w.ext).1 ≠ -1 →
          firstRefusalAt env k (capacityQuery env adaptive w.ext).2 = true → k < fuel →
          autoGenerate env adaptive fuel w =
              some (0, { w with
                ext := autoState env (k + 1) (capacityQuery env adaptive w.ext).2,
                trace := w.trace ++
                  capacityEvent adaptive (capacityQuery env adaptive w.ext).1 ::
                    autoEvents env k (capacityQuery env adaptive w.ext).2 })
            ∧ countTicks (autoEvents env k (capacityQuery env adaptive w.ext).2) = k + 1
            ∧ countWrites (autoEvents env k (capacityQuery env adaptive w.ext).2) = k + 1
            ∧ tickWritePairs env
                (autoEvents env k (capacityQuery env adaptive w.ext).2) = true
            ∧ (autoEvents env k (capacityQuery env adaptive w.ext).2).all
                (fun e => !e.isBypassed) = true) := by
  constructor
  · intro hq
    cases adaptive
    · simp only [capacityQuery, Bool.false_eq_true, if_false] at hq
      simp [autoGenerate, paAutoGenerate, capacityQuery, capacityEvent, hq]
    · simp only [capacityQuery, if_true] at hq
      simp [autoGenerate, paAdaptiveAutoGenerate, capacityQuery, capacityEvent, hq]
  · intro hq hk hf
    refine ⟨?_, countTicks_autoEvents env k _, countWrites_autoEvents env k _,
      tickWritePairs_autoEvents env k _ hk, bypassed_autoEvents env k _⟩
    cases adaptive
    · simp only [capacityQuery, Bool.false_eq_true, if_false] at hq hk
      simp only [autoGenerate, paAutoGenerate, capacityQuery, capacityEvent,
        Bool.false_eq_true, if_false, beq_iff_eq, hq]
      rw [autoGenerateLoop_result env k fuel _ hk hf]
      simp
    · simp only [capacityQuery, if_true] at hq hk
      simp only [autoGenerate, paAdaptiveAutoGenerate, capacityQuery, capacityEvent,
        if_true, beq_iff_eq, hq]
      rw [autoGenerateLoop_result env k fuel _ hk hf]
      simp

theorem autoGenerate_contract_witness :
    ((capacityQuery demoEnv true demoNotReady.ext).1 = -1 ∧
        autoGenerate demoEnv true 0 demoNotReady =
          some (-1, { demoNotReady with
            trace := [Event.calcnDeviceBufferSamplesToFillAdaptively (-1)] }))
      ∧ ((capacityQuery demoEnv false demoWorld.ext).1 ≠ -1 ∧
          firstRefusalAt demoEnv 2 (capacityQuery demoEnv false demoWorld.ext).2 = true ∧
          (autoGenerate demoEnv false 3 demoWorld).map (fun r => (r.1, r.2.trace)) =
            some (0, [Event.calcnDeviceBufferSamplesToFill 4,
              Event.paTick 0, Event.writeSamplesWithoutBlocking 100 2 2,
              Event.paTick 0, Event.writeSamplesWithoutBlocking 100 2 2,
              Event.paTick 0, Event.writeSamplesWithoutBlocking 100 2 (-1)])) :=
  ⟨⟨by decide, (autoGenerate_contract demoEnv true 0 0 demoNotReady).1 (by decide)⟩,
    ⟨by decide, by decide,
      by rw [((autoGenerate_contract demoEnv false 3 2 demoWorld).2
          (by decide) (by decide) (by decide)).1]; rfl⟩⟩


end Phya
